import Mathlib

/-!
Shallow embedding of the Apache Mynewt SPI SD/MMC driver
(`hw/drivers/mmc/src/mmc.c`) and proofs about its spec.

The driver talks to the card through two HAL primitives:
`hal_spi_tx_val` (exchange one byte on the SPI bus) and `hal_gpio_write`
(drive the chip-select line).  We model the environment (card + HAL) as an
oracle `Card` that fixes the byte received on the k-th SPI exchange, and we
thread an explicit state `St` that records everything observable: the bytes
transmitted, the chip-select writes, the process-wide scratch block buffer
`g_block_buf`, and the bytes copied into the caller's destination buffer.

Time (`os_time_get` / `os_time_delay`) is modelled by an explicit tick
counter threaded through the polling loops; `os_time_delay d` advances it
by `d` ticks.  Each deadline-bounded polling loop is translated with its
iteration count precomputed from the deadline arithmetic, so that the
recursion is structural and runs inside the kernel; the count is exact
(see the per-loop comments), not an over-approximating fuel.
-/

/-- MMC commands used by the driver (mmc.c lines 30-41). -/
def CMD0 : Nat := 0
def CMD1 : Nat := 1
def CMD8 : Nat := 8
def CMD12 : Nat := 12
def CMD16 : Nat := 16
def CMD17 : Nat := 17
def CMD18 : Nat := 18
def CMD24 : Nat := 24
def CMD25 : Nat := 25
def CMD55 : Nat := 55
def CMD58 : Nat := 58
def ACMD41 : Nat := 0x80 + 41
/-- HCS bit: `(uint32_t)1 << 30`. -/
def HCS : Nat := 1 <<< 30

/-- R1 response status flags (mmc.c lines 53-59). -/
def R_IDLE : Nat := 0x01
def R_ERASE_RESET : Nat := 0x02
def R_ILLEGAL_COMMAND : Nat := 0x04
def R_CRC_ERROR : Nat := 0x08
def R_ERASE_ERROR : Nat := 0x10
def R_ADDR_ERROR : Nat := 0x20
def R_PARAM_ERROR : Nat := 0x40

def BLOCK_LEN : Nat := 512

/-- The `size_t` modulus 2^64, written as a literal so that kernel
reduction does not go through the power operator. -/
def SIZE_T_MOD : Nat := 18446744073709551616

/-- Modelled from the spec: the OS tick rate.  `os/os_time.h` is not part of
src/; the spec speaks of wall-clock deadlines (1 second, 200 ms, ...) that the
code expresses in ticks via `OS_TICKS_PER_SEC`.  We use the Mynewt default of
1000 ticks per second; no claim depends on the exact (positive) value. -/
def OS_TICKS_PER_SEC : Nat := 1000

/-- Modelled from the spec: the driver's error taxonomy (section 7).  The
header `mmc/mmc.h` that defines the `MMC_*` codes is not under src/; the code
compares raw status bytes against `MMC_OK`, so `MMC_OK` must be 0, and the
remaining codes are distinct nonzero values.  No claim depends on the exact
nonzero values. -/
def MMC_OK : Int := 0
def MMC_CARD_ERROR : Int := -1
def MMC_READ_ERROR : Int := -2
def MMC_WRITE_ERROR : Int := -3
def MMC_TIMEOUT : Int := -4
def MMC_PARAM_ERROR : Int := -5
def MMC_CRC_ERROR : Int := -6
def MMC_DEVICE_ERROR : Int := -7
def MMC_RESPONSE_ERROR : Int := -8
def MMC_VOLTAGE_ERROR : Int := -9

/-- The environment oracle: the byte the card answers on the k-th SPI
exchange of the run, plus the return codes of the two fallible HAL setup
calls made by `mmc_init`. -/
structure Card where
  rx : Nat → Nat
  spiInitRc : Int
  spiConfigRc : Int

/-- Observable driver state: `cnt` counts SPI byte exchanges, `txr` is the
list of bytes transmitted (newest first; see `St.wire` for wire order),
`cs` the chip-select writes (newest first), `blockBuf` the 512-byte scratch
buffer `g_block_buf`, and `out` the (index, byte) pairs copied into the
caller's destination buffer by `mmc_read`'s `memcpy`. -/
structure St where
  cnt : Nat
  txr : List Nat
  cs : List Nat
  blockBuf : List Nat
  out : List (Nat × Nat)
deriving DecidableEq

/-- The bytes transmitted on the SPI bus, in wire order. -/
def St.wire (s : St) : List Nat := s.txr.reverse

/-- Initial state: `g_block_buf` is a zero-initialized static. -/
def st0 : St := ⟨0, [], [], List.replicate BLOCK_LEN 0, []⟩

/-- Model of `hal_spi_tx_val(spi_num, b)`: transmit `b`, receive the oracle
byte for this exchange.  Every receiving site in the C code stores the result
into a `uint8_t`, so the received value is masked to a byte here. -/
def spiTx (c : Card) (s : St) (b : Nat) : Nat × St :=
  (c.rx s.cnt &&& 0xff, { s with cnt := s.cnt + 1, txr := b :: s.txr })

/-- Model of `hal_gpio_write(mmc->ss_pin, v)` (and `hal_gpio_init_out`,
which also drives the pin). -/
def gpioWrite (s : St) (v : Nat) : St :=
  { s with cs := v :: s.cs }

/-- Current chip-select level: last value written, or 1 (deasserted, the
level `hal_gpio_init_out` establishes) if never written. -/
def csEnd (s : St) : Nat :=
  s.cs.head?.getD 1

/-- The `for (i = 0; i < 74; i++) hal_spi_tx_val(..., 0xff)` idle-clock loop
in `mmc_init`. -/
def clockOut (c : Card) : St → Nat → St
  | s, 0 => s
  | s, k + 1 => clockOut c (spiTx c s 0xff).2 k

/-- The response-poll loop of `send_mmc_cmd` (mmc.c lines 156-160):
`for (n = 255; n > 0; n--) { status = tx(0xff); if ((status & 0x80) == 0)
break; }`, returning the last status byte whether or not the high bit
cleared.  Called with fuel 254, so at most 255 exchanges happen. -/
def pollR1Aux (c : Card) : St → Nat → Nat × St
  | s, fuel =>
    let p := spiTx c s 0xff
    if p.1 &&& 0x80 = 0 then p
    else
      match fuel with
      | 0 => p
      | f + 1 => pollR1Aux c p.2 f

/-- One raw command frame plus response poll (mmc.c lines 129-166, without
the `CMD55` prefix dispatch): start byte `0x40 | (cmd & ~0x80)`, 4 payload
bytes big-endian, CRC byte (valid constants for CMD0/CMD8, placeholder
0x01 otherwise, selected on the unmasked `cmd` as in the C `switch`). -/
def sendCmdRaw (c : Card) (s : St) (cmd payload : Nat) : Nat × St :=
  let s := (spiTx c s (0x40 ||| (cmd &&& 0x7f))).2
  let s := (spiTx c s ((payload >>> 24) &&& 0xff)).2
  let s := (spiTx c s ((payload >>> 16) &&& 0xff)).2
  let s := (spiTx c s ((payload >>> 8) &&& 0xff)).2
  let s := (spiTx c s (payload &&& 0xff)).2
  let crc : Nat := if cmd = CMD0 then 0x95 else if cmd = CMD8 then 0x87 else 0x01
  let s := (spiTx c s crc).2
  pollR1Aux c s 254

/-- Model of `send_mmc_cmd` (mmc.c lines 116-167).  A command with the
application-command marker (bit 7) first sends the full CMD55 exchange,
discarding its result, then the target command; in the source this is a
one-level recursion, unfolded here. -/
def send_mmc_cmd (c : Card) (s : St) (cmd payload : Nat) : Nat × St :=
  if cmd &&& 0x80 ≠ 0 then
    sendCmdRaw c (sendCmdRaw c s CMD55 0).2 cmd payload
  else
    sendCmdRaw c s cmd payload

/-- Model of `mmc_error_by_status` (mmc.c lines 82-104).  The branches for
erase-reset, illegal-command, erase-error and address-error have empty TODO
bodies in the C, so taking any of them falls through to the final
`return MMC_CARD_ERROR`; that fallthrough is written out explicitly here. -/
def mmc_error_by_status (status : Nat) : Int :=
  if status = 0 then MMC_OK
  else if status &&& R_IDLE ≠ 0 then MMC_TIMEOUT
  else if status &&& R_ERASE_RESET ≠ 0 then MMC_CARD_ERROR
  else if status &&& R_ILLEGAL_COMMAND ≠ 0 then MMC_CARD_ERROR
  else if status &&& R_CRC_ERROR ≠ 0 then MMC_CRC_ERROR
  else if status &&& R_ERASE_ERROR ≠ 0 then MMC_CARD_ERROR
  else if status &&& R_ADDR_ERROR ≠ 0 then MMC_CARD_ERROR
  else if status &&& R_PARAM_ERROR ≠ 0 then MMC_PARAM_ERROR
  else MMC_CARD_ERROR

/-- Model of `struct mmc_cfg` (mmc.c lines 75-80): the device handle holds
exactly a transport channel id, a chip-select pin, the opaque low-level SPI
config pointer, and a pointer to the fixed `mmc_settings` (the two pointers
are modelled as numeric tags).  Note there is no addressing-mode field. -/
structure mmc_cfg where
  spi_num : Nat
  ss_pin : Nat
  spi_cfg : Nat
  settings : Nat
deriving DecidableEq

/-- The rounded byte length `(len + BLOCK_LEN - 1) & ~(BLOCK_LEN - 1)`
computed by `mmc_read`/`mmc_write` on a 64-bit `size_t`. -/
def blockLenOf (len : Nat) : Nat :=
  ((len + (BLOCK_LEN - 1)) % SIZE_T_MOD) &&& (SIZE_T_MOD - BLOCK_LEN)

/-- Deadline-bounded poll for a data token (mmc.c lines 377-382 and 472-477):
`do { res = tx(0xff); if (res != 0xff) break; delay(step); }
 while (os_time_get() < timeout);`.
The argument `k` is the exact number of while-checks that will still pass
(precomputed by `tokenPoll` from the deadline), so fuel exhaustion coincides
with the C loop's deadline check failing; in that case the delay before the
failing check has still advanced the clock. -/
def tokenPollGo (c : Card) (step : Nat) : Nat → Nat → St → Nat × Nat × St
  | 0, now, s =>
    let p := spiTx c s 0xff
    if p.1 ≠ 0xff then (p.1, now, p.2) else (p.1, now + step, p.2)
  | k + 1, now, s =>
    let p := spiTx c s 0xff
    if p.1 ≠ 0xff then (p.1, now, p.2) else tokenPollGo c step k (now + step) p.2

/-- The 200 ms control-token wait: sleep step is `OS_TICKS_PER_SEC / 20`
ticks; the loop body runs once, and then again exactly while
`now + j*step < timeout`, i.e. `(timeout - now - 1) / step` more times. -/
def tokenPoll (c : Card) (timeout now : Nat) (s : St) : Nat × Nat × St :=
  tokenPollGo c (OS_TICKS_PER_SEC / 20) ((timeout - now - 1) / (OS_TICKS_PER_SEC / 20)) now s

/-- The post-write busy wait (mmc.c lines 559-564): identical loop shape to
`tokenPollGo` but breaking on any nonzero byte, sleep step
`OS_TICKS_PER_SEC / 100`. -/
def busyPollGo (c : Card) (step : Nat) : Nat → Nat → St → Nat × Nat × St
  | 0, now, s =>
    let p := spiTx c s 0xff
    if p.1 ≠ 0 then (p.1, now, p.2) else (p.1, now + step, p.2)
  | k + 1, now, s =>
    let p := spiTx c s 0xff
    if p.1 ≠ 0 then (p.1, now, p.2) else busyPollGo c step k (now + step) p.2

/-- The 5 s busy wait after a write. -/
def busyPoll (c : Card) (timeout now : Nat) (s : St) : Nat × Nat × St :=
  busyPollGo c (OS_TICKS_PER_SEC / 100) ((timeout - now - 1) / (OS_TICKS_PER_SEC / 100)) now s

/-- The ACMD41 negotiation loop (mmc.c lines 291-297):
`for (;;) { status = send(ACMD41, HCS);
  if ((status & R_IDLE) == 0 || os_time_get() > timeout) break;
  delay(OS_TICKS_PER_SEC / 10); }`.
Fuel `k+1` means the deadline check `now > timeout` still fails at this
iteration; fuel 0 means it succeeds, so the loop breaks whatever the status.
`acmd41Loop` precomputes the exact fuel from the deadline. -/
def acmd41Go (c : Card) (step : Nat) : Nat → Nat → St → Nat × Nat × St
  | 0, now, s =>
    let p := send_mmc_cmd c s ACMD41 HCS
    (p.1, now, p.2)
  | k + 1, now, s =>
    let p := send_mmc_cmd c s ACMD41 HCS
    if p.1 &&& R_IDLE = 0 then (p.1, now, p.2)
    else acmd41Go c step k (now + step) p.2

/-- The 1 s operating-condition wait.  The j-th iteration (j ≥ 1) checks the
clock at `now + (j-1)*step`, so exactly `(timeout - now) / step + 1` checks
pass when `now ≤ timeout`, and none when `now > timeout`. -/
def acmd41Loop (c : Card) (timeout now : Nat) (s : St) : Nat × Nat × St :=
  acmd41Go c (OS_TICKS_PER_SEC / 10)
    (if timeout < now then 0 else (timeout - now) / (OS_TICKS_PER_SEC / 10) + 1) now s

/-- The per-block receive loop of `mmc_read` (mmc.c lines 394-396):
`for (n = 0; n < BLOCK_LEN; n++) g_block_buf[n] = tx(0xff);` — the loop
receives `k` bytes in order and stores them at `g_block_buf[0..k-1]`,
i.e. (for k = 512) it replaces the whole scratch buffer with the received
bytes; `acc` accumulates them newest first. -/
def fillBufGo (c : Card) : St → List Nat → Nat → St
  | s, acc, 0 => { s with blockBuf := acc.reverse }
  | s, acc, k + 1 =>
    let p := spiTx c s 0xff
    fillBufGo c p.2 (p.1 :: acc) k

/-- Receive one full 512-byte block into `g_block_buf`. -/
def fillBuf (c : Card) (s : St) : St := fillBufGo c s [] BLOCK_LEN

/-- The `while (block_count--)` loop of `mmc_read` (mmc.c lines 389-410):
read 512 bytes into the scratch buffer, discard 2 CRC bytes, then
`memcpy(buf + index, &g_block_buf[offset], MIN(BLOCK_LEN - offset, len))`,
i.e. append to `out` the bytes `g_block_buf[offset..offset+amount-1]` paired
with destination indices `index..index+amount-1`.
`BLOCK_LEN - offset` is `size_t` arithmetic, hence the mod-2^64 form. -/
def readLoop (c : Card) : St → Nat → Nat → Nat → Nat → St
  | s, 0, _, _, _ => s
  | s, bc + 1, offset, len, index =>
    let s := fillBuf c s
    let s := (spiTx c s 0xff).2
    let s := (spiTx c s 0xff).2
    let bo := (SIZE_T_MOD + BLOCK_LEN - offset) % SIZE_T_MOD
    let amount := if bo < len then bo else len
    let s := { s with
      out := s.out ++ (List.range' index amount).zip ((s.blockBuf.drop offset).take amount) }
    readLoop c s bc 0 (len - amount) (index + amount)

/-- Model of `mmc_read` (mmc.c lines 336-424).  `mmc_cfg_dev` returns NULL
for any id other than 0, giving `MMC_DEVICE_ERROR`; `now` is the tick clock
at entry. -/
def mmc_read (c : Card) (mmc_id addr len now : Nat) (s : St) : Int × St :=
  if mmc_id ≠ 0 then (MMC_DEVICE_ERROR, s) else
  let block_len := blockLenOf len
  let block_count := block_len / BLOCK_LEN
  let block_addr := addr / BLOCK_LEN
  let offset := addr - block_addr * BLOCK_LEN
  let s := gpioWrite s 0
  let cmd := if block_count = 1 then CMD17 else CMD18
  let q := send_mmc_cmd c s cmd block_addr
  if q.1 ≠ 0 then (MMC_CARD_ERROR, gpioWrite q.2 1) else
  let t := tokenPoll c (now + OS_TICKS_PER_SEC / 5) now q.2
  if t.1 = 0xFE then
    let s := readLoop c t.2.2 block_count offset len 0
    let s := if cmd = CMD18 then (send_mmc_cmd c s CMD12 0).2 else s
    (MMC_OK, gpioWrite s 1)
  else (MMC_CARD_ERROR, gpioWrite t.2.2 1)

/-- The `memcpy(&g_block_buf[offset], buf + index, amount)` of the write
path: replace `dst[off..off+amount-1]` with the `amount` source bytes
starting at `idx`.  The source buffer is an array of `uint8_t`, hence the
byte mask. -/
def memcpyBuf (dst : List Nat) (off : Nat) (src : Nat → Nat) (idx amount : Nat) : List Nat :=
  dst.take off ++ (List.range amount).map (fun i => src (idx + i) &&& 0xff)
    ++ dst.drop (off + amount)

/-- The per-block transmit loop of `mmc_write` (mmc.c lines 520-522):
`for (n = 0; n < BLOCK_LEN; n++) tx(g_block_buf[n]);` — transmit the 512
scratch-buffer bytes in order. -/
def sendBufGo (c : Card) : St → List Nat → St
  | s, [] => s
  | s, b :: rest => sendBufGo c (spiTx c s b).2 rest

/-- Transmit the whole scratch buffer. -/
def sendBuf (c : Card) (s : St) : St := sendBufGo c s s.blockBuf

/-- The `do { ... } while (len)` block-write loop of `mmc_write` (mmc.c
lines 505-540): send the start token (0xFE for CMD24, 0xFC otherwise), copy
`MIN(BLOCK_LEN - offset, len)` source bytes into the scratch buffer,
transmit all 512 scratch bytes plus 2 filler CRC bytes, read the
data-response token, and stop on a rejected token or when `len` runs out.
Returns the last data-response token read.  The fuel only bounds the
number of loop repetitions: callers pass `fuel = len`, which never runs out
because `offset < BLOCK_LEN` on every reachable call makes `amount ≥ 1`
whenever `len ≥ 1`, so `len` strictly decreases on each repetition. -/
def writeBlocksGo (c : Card) (cmd : Nat) (src : Nat → Nat) :
    Nat → Nat → Nat → Nat → St → Nat × St
  | fuel, offset, len, index, s =>
    let s := (spiTx c s (if cmd = CMD24 then 0xFE else 0xFC)).2
    let bo := (SIZE_T_MOD + BLOCK_LEN - offset) % SIZE_T_MOD
    let amount := if bo < len then bo else len
    let s := { s with blockBuf := memcpyBuf s.blockBuf offset src index amount }
    let s := sendBuf c s
    let s := (spiTx c s 0xff).2
    let s := (spiTx c s 0xff).2
    let p := spiTx c s 0xff
    if p.1 &&& 0x1f ≠ 0x05 then p
    else if len - amount = 0 then p
    else
      match fuel with
      | 0 => p
      | f + 1 => writeBlocksGo c cmd src f 0 (len - amount) (index + amount) p.2

/-- The unaligned-write pre-read (mmc.c lines 465-490): when the start
address is not block-aligned, read the whole target block into the scratch
buffer first (single-block read command, token wait, 512 data bytes, 2 CRC
bytes); any failure releases chip-select and aborts with `MMC_CARD_ERROR`
before any write command is issued. -/
def preReadStep (c : Card) (block_addr offset now : Nat) (s : St) :
    Except (Int × St) (Nat × St) :=
  if offset = 0 then .ok (now, s) else
  let q := send_mmc_cmd c s CMD17 block_addr
  if q.1 ≠ 0 then .error (MMC_CARD_ERROR, gpioWrite q.2 1) else
  let t := tokenPoll c (now + OS_TICKS_PER_SEC / 5) now q.2
  if t.1 ≠ 0xfe then .error (MMC_CARD_ERROR, gpioWrite t.2.2 1) else
  let s := fillBuf c t.2.2
  let s := (spiTx c s 0xff).2
  let s := (spiTx c s 0xff).2
  .ok (t.2.1, s)

/-- Model of `mmc_write` (mmc.c lines 429-569). -/
def mmc_write (c : Card) (mmc_id addr : Nat) (src : Nat → Nat) (len now : Nat) (s : St) :
    Int × St :=
  if mmc_id ≠ 0 then (MMC_DEVICE_ERROR, s) else
  let block_len := blockLenOf len
  let block_count := block_len / BLOCK_LEN
  let block_addr := addr / BLOCK_LEN
  let offset := addr - block_addr * BLOCK_LEN
  let s := gpioWrite s 0
  match preReadStep c block_addr offset now s with
  | .error r => r
  | .ok (now, s) =>
    let cmd := if block_count = 1 then CMD24 else CMD25
    let q := send_mmc_cmd c s cmd block_addr
    if q.1 ≠ 0 then (MMC_CARD_ERROR, gpioWrite q.2 1) else
    let s := (spiTx c q.2 0xff).2
    let w := writeBlocksGo c cmd src len offset len 0 s
    let res := w.1 &&& 0x1f
    let status : Int :=
      if res = 0x05 then MMC_OK
      else if res = 0x0b then MMC_CRC_ERROR
      else MMC_WRITE_ERROR
    let b := busyPoll c (now + 5 * OS_TICKS_PER_SEC) now w.2
    (status, gpioWrite b.2.2 1)

/-- The data-response classification stated by the spec for the write
path: low-5-bits 0b00101 is success, 0b01011 a CRC error, 0b01101 and
everything else a write error (the `switch` at mmc.c lines 546-557). -/
def writeRespStatus (tok : Nat) : Int :=
  if tok = 0x05 then MMC_OK
  else if tok = 0x0b then MMC_CRC_ERROR
  else MMC_WRITE_ERROR

/-- Model of `mmc_init` (mmc.c lines 183-331).  `spi_num`, `spi_cfg` and
`ss_pin` are the caller's arguments (pointers modelled as numeric tags);
`now` is the tick clock at entry.  `hal_spi_set_txrx_cb` and
`hal_spi_enable` have no observable effect in this model.  Returns the
C return code, the populated `g_mmc_cfg`, and the final state. -/
def mmc_init (c : Card) (spi_num spi_cfg ss_pin now : Nat) (s : St) : Int × mmc_cfg × St :=
  let mmc : mmc_cfg := ⟨spi_num, ss_pin, spi_cfg, 0⟩
  let s := gpioWrite s 1
  if c.spiInitRc ≠ 0 then (c.spiInitRc, mmc, s) else
  if c.spiConfigRc ≠ 0 then (c.spiConfigRc, mmc, s) else
  let now := now + OS_TICKS_PER_SEC / 100
  let s := gpioWrite s 0
  let s := (spiTx c s 0xff).2
  let s := clockOut c s 74
  let q0 := send_mmc_cmd c s CMD0 0
  if q0.1 ≠ R_IDLE then (mmc_error_by_status q0.1, mmc, gpioWrite q0.2 1) else
  let q8 := send_mmc_cmd c q0.2 CMD8 0x1AA
  let r0 := spiTx c q8.2 0xff
  let r1 := spiTx c r0.2 0xff
  let r2 := spiTx c r1.2 0xff
  let r3 := spiTx c r2.2 0xff
  if q8.1 &&& R_ILLEGAL_COMMAND ≠ 0 then
    let s := (send_mmc_cmd c r3.2 CMD58 0).2
    (0, mmc, gpioWrite s 1)
  else
  if r3.1 ≠ 0xAA then (MMC_RESPONSE_ERROR, mmc, gpioWrite r3.2 1) else
  if r2.1 ≠ 0x01 then (MMC_VOLTAGE_ERROR, mmc, gpioWrite r3.2 1) else
  let timeout := now + OS_TICKS_PER_SEC
  let a := acmd41Loop c timeout now r3.2
  if a.1 ≠ 0 then (mmc_error_by_status a.1, mmc, gpioWrite a.2.2 1) else
  let q58 := send_mmc_cmd c a.2.2 CMD58 0
  let o0 := spiTx c q58.2 0xff
  let o1 := spiTx c o0.2 0xff
  let o2 := spiTx c o1.2 0xff
  let o3 := spiTx c o2.2 0xff
  (0, mmc, gpioWrite o3.2 1)

/-! Concrete scenario environments used to settle the claims.  `disk` is an
arbitrary but fixed model of the card's stored bytes (one byte per byte
address); the cards below answer command responses and data tokens at the
exchange positions that the driver's own transmission sequence determines,
and serve data bytes from `disk`. -/

/-- Byte stored at byte address `a` of the modelled card. -/
def disk (a : Nat) : Nat := (a * 7 + 13) % 251

/-- Card for the 600-byte read at address 100: accepts the read command
(exchange 6), raises the 0xFE start token immediately (exchange 7), serves
block 0 on exchanges 8-519 and block 1 on 522-1033 (520/521 and 1034/1035
are the CRC pairs), and accepts the stop command (exchange 1042). -/
def c6card : Card :=
  ⟨fun k =>
    if k = 6 then 0 else if k = 7 then 0xFE
    else if 8 ≤ k ∧ k < 520 then disk (k - 8)
    else if 522 ≤ k ∧ k < 1034 then disk (512 + (k - 522))
    else if k = 1042 then 0 else 0xff, 0, 0⟩

/-- Card for the 500-byte read at address 100: accepts the (single-block)
read command, raises the start token, and serves block 0 on exchanges
8-519. -/
def c1card : Card :=
  ⟨fun k =>
    if k = 6 then 0 else if k = 7 then 0xFE
    else if 8 ≤ k ∧ k < 520 then disk (k - 8)
    else 0xff, 0, 0⟩

/-- Recognizable stale content for the scratch buffer before a write. -/
def staleBuf : List Nat := (List.range BLOCK_LEN).map fun n => (n * 11 + 3) % 256

/-- Process state in which `g_block_buf` holds `staleBuf`. -/
def st10 : St := ⟨0, [], [], staleBuf, []⟩

/-- Card for the zero-length write: accepts the write command (exchange 6)
and answers data-response token 0x05 (accepted) at exchange 523; every
other answer is 0xff, so the busy poll ends at its first exchange. -/
def c10card : Card := ⟨fun k => if k = 6 then 0 else if k = 523 then 0x05 else 0xff, 0, 0⟩

/-- Like `c10card` but the data-response token reports a CRC error. -/
def c10crc : Card := ⟨fun k => if k = 6 then 0 else if k = 523 then 0x0b else 0xff, 0, 0⟩

/-- A modern-card initialization run, parametrized by the first OCR payload
byte of the final CMD58 (exchange 114): the card answers idle to CMD0
(exchange 81), echoes voltage 0x01 / check pattern 0xAA to CMD8 (exchanges
88-92), accepts the CMD55 prefix (99), leaves idle on the first ACMD41
(106), and accepts the final CMD58 (113). -/
def ccsCardRx (ccs : Nat) : Nat → Nat := fun k =>
  if k = 81 then 0x01 else if k = 88 then 0 else if k = 91 then 0x01 else if k = 92 then 0xAA
  else if k = 99 then 0x01 else if k = 106 then 0 else if k = 113 then 0 else if k = 114 then ccs
  else 0xff

/-- Modern card whose OCR reports the card-capacity-status bit set. -/
def cardCCS : Card := ⟨ccsCardRx 0x40, 0, 0⟩

/-- Modern card whose OCR reports the card-capacity-status bit clear. -/
def cardNoCCS : Card := ⟨ccsCardRx 0x00, 0, 0⟩

/-- Card that answers 0x01 (idle) to everything except the CMD8 check
pattern echo: CMD0 sees idle, CMD8 echoes voltage 0x01 / pattern 0xAA, and
every ACMD41 answer keeps the idle flag set, so operating-condition
negotiation never succeeds. -/
def c8card : Card := ⟨fun k => if k = 92 then 0xAA else 0x01, 0, 0⟩

/-! Preservation lemmas: none of the bus helpers writes the chip-select
line, and none of the helpers used on `mmc_read`'s error paths touches the
caller's destination buffer. -/

@[simp] theorem spiTx_cs (c : Card) (s : St) (b : Nat) : ((spiTx c s b).2).cs = s.cs := rfl

@[simp] theorem spiTx_out (c : Card) (s : St) (b : Nat) : ((spiTx c s b).2).out = s.out := rfl

@[simp] theorem gpioWrite_out (s : St) (v : Nat) : (gpioWrite s v).out = s.out := rfl

@[simp] theorem clockOut_cs (c : Card) (k : Nat) (s : St) : (clockOut c s k).cs = s.cs := by
  induction k generalizing s with
  | zero => rfl
  | succ k ih => simp [clockOut, ih]

@[simp] theorem pollR1Aux_cs (c : Card) (fuel : Nat) (s : St) :
    ((pollR1Aux c s fuel).2).cs = s.cs := by
  induction fuel generalizing s with
  | zero => rw [pollR1Aux]; split <;> rfl
  | succ f ih => rw [pollR1Aux]; split
                 · rfl
                 · exact ih _

@[simp] theorem pollR1Aux_out (c : Card) (fuel : Nat) (s : St) :
    ((pollR1Aux c s fuel).2).out = s.out := by
  induction fuel generalizing s with
  | zero => rw [pollR1Aux]; split <;> rfl
  | succ f ih => rw [pollR1Aux]; split
                 · rfl
                 · exact ih _

@[simp] theorem sendCmdRaw_cs (c : Card) (s : St) (cmd payload : Nat) :
    ((sendCmdRaw c s cmd payload).2).cs = s.cs := by
  simp [sendCmdRaw]

@[simp] theorem sendCmdRaw_out (c : Card) (s : St) (cmd payload : Nat) :
    ((sendCmdRaw c s cmd payload).2).out = s.out := by
  simp [sendCmdRaw]

@[simp] theorem send_mmc_cmd_cs (c : Card) (s : St) (cmd payload : Nat) :
    ((send_mmc_cmd c s cmd payload).2).cs = s.cs := by
  rw [send_mmc_cmd]; split <;> simp

@[simp] theorem send_mmc_cmd_out (c : Card) (s : St) (cmd payload : Nat) :
    ((send_mmc_cmd c s cmd payload).2).out = s.out := by
  rw [send_mmc_cmd]; split <;> simp

@[simp] theorem tokenPollGo_cs (c : Card) (step k now : Nat) (s : St) :
    ((tokenPollGo c step k now s).2.2).cs = s.cs := by
  induction k generalizing now s with
  | zero => rw [tokenPollGo]; split <;> rfl
  | succ k ih => rw [tokenPollGo]; split
                 · rfl
                 · exact ih _ _

@[simp] theorem tokenPollGo_out (c : Card) (step k now : Nat) (s : St) :
    ((tokenPollGo c step k now s).2.2).out = s.out := by
  induction k generalizing now s with
  | zero => rw [tokenPollGo]; split <;> rfl
  | succ k ih => rw [tokenPollGo]; split
                 · rfl
                 · exact ih _ _

@[simp] theorem tokenPoll_cs (c : Card) (timeout now : Nat) (s : St) :
    ((tokenPoll c timeout now s).2.2).cs = s.cs := by
  simp [tokenPoll]

@[simp] theorem tokenPoll_out (c : Card) (timeout now : Nat) (s : St) :
    ((tokenPoll c timeout now s).2.2).out = s.out := by
  simp [tokenPoll]

@[simp] theorem busyPollGo_cs (c : Card) (step k now : Nat) (s : St) :
    ((busyPollGo c step k now s).2.2).cs = s.cs := by
  induction k generalizing now s with
  | zero => rw [busyPollGo]; split <;> rfl
  | succ k ih => rw [busyPollGo]; split
                 · rfl
                 · exact ih _ _

@[simp] theorem busyPoll_cs (c : Card) (timeout now : Nat) (s : St) :
    ((busyPoll c timeout now s).2.2).cs = s.cs := by
  simp [busyPoll]

@[simp] theorem acmd41Go_cs (c : Card) (step k now : Nat) (s : St) :
    ((acmd41Go c step k now s).2.2).cs = s.cs := by
  induction k generalizing now s with
  | zero => simp [acmd41Go]
  | succ k ih => rw [acmd41Go]; split
                 · simp
                 · simp [ih]

@[simp] theorem acmd41Loop_cs (c : Card) (timeout now : Nat) (s : St) :
    ((acmd41Loop c timeout now s).2.2).cs = s.cs := by
  simp [acmd41Loop]

@[simp] theorem fillBufGo_cs (c : Card) (k : Nat) (acc : List Nat) (s : St) :
    (fillBufGo c s acc k).cs = s.cs := by
  induction k generalizing acc s with
  | zero => rfl
  | succ k ih => simp [fillBufGo, ih]

@[simp] theorem fillBufGo_out (c : Card) (k : Nat) (acc : List Nat) (s : St) :
    (fillBufGo c s acc k).out = s.out := by
  induction k generalizing acc s with
  | zero => rfl
  | succ k ih => simp [fillBufGo, ih]

@[simp] theorem fillBuf_cs (c : Card) (s : St) : (fillBuf c s).cs = s.cs := by
  simp [fillBuf]

@[simp] theorem fillBuf_out (c : Card) (s : St) : (fillBuf c s).out = s.out := by
  simp [fillBuf]

@[simp] theorem sendBufGo_cs (c : Card) (l : List Nat) (s : St) :
    (sendBufGo c s l).cs = s.cs := by
  induction l generalizing s with
  | nil => rfl
  | cons b rest ih => simp [sendBufGo, ih]

@[simp] theorem sendBuf_cs (c : Card) (s : St) : (sendBuf c s).cs = s.cs := by
  simp [sendBuf]

set_option maxRecDepth 40000
set_option maxHeartbeats 2000000

/-- C4: for every raw status byte, `mmc_error_by_status` maps 0x00 to
success, any byte with the idle flag (0x01) set to `MMC_TIMEOUT`, 0x08 to
`MMC_CRC_ERROR`, 0x40 to `MMC_PARAM_ERROR`, and any nonzero byte whose set
flags all lie in the erase-reset / illegal-command / erase-error /
address-error mask 0x36 to the generic `MMC_CARD_ERROR`. -/
theorem C4_error_classifier (s : Nat) (hs : s < 256) :
    (s = 0 → mmc_error_by_status s = MMC_OK) ∧
    (s &&& R_IDLE ≠ 0 → mmc_error_by_status s = MMC_TIMEOUT) ∧
    (s = 0x08 → mmc_error_by_status s = MMC_CRC_ERROR) ∧
    (s = 0x40 → mmc_error_by_status s = MMC_PARAM_ERROR) ∧
    (s ≠ 0 → s &&& 0x36 = s → mmc_error_by_status s = MMC_CARD_ERROR) := by
  revert hs
  revert s
  decide

/-- Witness for C4 at the concrete status byte 0x03 (idle flag set). -/
theorem C4_error_classifier_witness :
    (0x03 : Nat) < 256 ∧
    (((0x03 : Nat) = 0 → mmc_error_by_status 0x03 = MMC_OK) ∧
     ((0x03 : Nat) &&& R_IDLE ≠ 0 → mmc_error_by_status 0x03 = MMC_TIMEOUT) ∧
     ((0x03 : Nat) = 0x08 → mmc_error_by_status 0x03 = MMC_CRC_ERROR) ∧
     ((0x03 : Nat) = 0x40 → mmc_error_by_status 0x03 = MMC_PARAM_ERROR) ∧
     ((0x03 : Nat) ≠ 0 → (0x03 : Nat) &&& 0x36 = 0x03 →
        mmc_error_by_status 0x03 = MMC_CARD_ERROR)) :=
  ⟨by decide, C4_error_classifier 0x03 (by decide)⟩

/-- C1 is false of the code: `mmc_read`/`mmc_write` compute the block count
as ceiling(L / 512), not ceiling((L + offset) / 512).  At address 100 and
length 500 the code's count is 1 while the claimed formula gives 2, and a
read against a fully cooperative card returns success having copied only
412 bytes (the remainder of block 0 from offset 100) into the destination
instead of the requested 500. -/
theorem C1_block_count_short_read :
    (mmc_read c1card 0 100 500 0 st0).1 = MMC_OK ∧
    (mmc_read c1card 0 100 500 0 st0).2.out =
      (List.range 412).map (fun i => (i, disk (100 + i))) ∧
    blockLenOf 500 / BLOCK_LEN = 1 ∧
    (100 % BLOCK_LEN + 500 + (BLOCK_LEN - 1)) / BLOCK_LEN = 2 := by
  refine ⟨by decide, by decide, by decide, by decide⟩

/-- C6: a read of 600 bytes at byte address 100 issues the multi-block read
command CMD18 (first frame on the wire is `0x52 0 0 0 0 0x01`, block index
0), transfers 2 blocks of 512 data bytes plus 2 discarded CRC bytes each,
and delivers exactly the 600 card bytes at addresses 100..699 (tail of
block 0, head of block 1) to destination indices 0..599.  The total wire
traffic is 6 (CMD18 frame) + 1 (response poll) + 1 (token poll) +
2*(512+2) (data and CRC) + 6 (CMD12 frame) + 1 (response poll) = 1043
bytes, which pins down the 514 bus bytes consumed per block. -/
theorem C6_read_600_at_100 :
    (mmc_read c6card 0 100 600 0 st0).1 = MMC_OK ∧
    (mmc_read c6card 0 100 600 0 st0).2.out =
      (List.range 600).map (fun i => (i, disk (100 + i))) ∧
    (mmc_read c6card 0 100 600 0 st0).2.wire.take 6 = [0x52, 0, 0, 0, 0, 0x01] ∧
    (mmc_read c6card 0 100 600 0 st0).2.wire.length = 1043 := by
  refine ⟨by decide, by decide, by decide, by decide⟩

/-- C10: a zero-length block-aligned write (address 512) is not a no-op:
block count 0 selects the multi-block command CMD25 (frame `0x59 0 0 0 1
0x01`, block index 1), one 0xFC start token is sent, one full 512-byte
block holding the stale scratch-buffer contents plus two 0xff filler CRC
bytes is transmitted, and the data-response token of that block is
classified into the returned status (accepted token 0x05 gives `MMC_OK`,
token 0x0b gives `MMC_CRC_ERROR`).  The wire trace is the frame, the
response poll byte, the gap byte, the start token, the 512 stale bytes,
2 CRC bytes, the token read, and one busy-poll byte. -/
theorem C10_zero_length_write :
    (mmc_write c10card 0 512 (fun _ => 0) 0 0 st10).1 = MMC_OK ∧
    (mmc_write c10card 0 512 (fun _ => 0) 0 0 st10).2.wire =
      [0x59, 0, 0, 0, 1, 0x01] ++ [0xff, 0xff, 0xfc] ++ staleBuf ++ [0xff, 0xff, 0xff, 0xff] ∧
    (mmc_write c10card 0 512 (fun _ => 0) 0 0 st10).2.blockBuf = staleBuf ∧
    (mmc_write c10crc 0 512 (fun _ => 0) 0 0 st10).1 = MMC_CRC_ERROR := by
  refine ⟨by decide, by decide, by decide, by decide⟩

/-- C2 is false of the code: on a successful modern-card initialization the
CCS bit of the OCR answer has no effect whatsoever — `struct mmc_cfg` has
no addressing-mode field and the CCS conditional's body is empty — so two
cards identical except for the capacity bit produce identical results and
identical final driver state. -/
theorem C2_ccs_bit_ignored :
    mmc_init cardCCS 0 0 25 0 st0 = mmc_init cardNoCCS 0 0 25 0 st0 ∧
    (mmc_init cardCCS 0 0 25 0 st0).1 = MMC_OK := by
  refine ⟨by decide, by decide⟩

/-- The clock value at which the ACMD41 loop gives up grows by one sleep
step per iteration. -/
theorem acmd41Go_now_le (c : Card) (step : Nat) :
    ∀ (k now : Nat) (s : St), (acmd41Go c step k now s).2.1 ≤ now + k * step := by
  intro k
  induction k with
  | zero =>
      intro now s
      rw [acmd41Go]
      simp
  | succ k ih =>
      intro now s
      rw [acmd41Go]
      split
      · simp
      · refine le_trans (ih _ _) ?_
        rw [Nat.succ_mul]
        omega

/-- The ACMD41 negotiation loop never reports a clock more than one sleep
step past its deadline: polling stops once the timer passes the deadline. -/
theorem acmd41Loop_now_le (c : Card) (timeout now : Nat) (s : St) :
    (acmd41Loop c timeout now s).2.1 ≤ max now (timeout + OS_TICKS_PER_SEC / 10) := by
  rw [acmd41Loop]
  split
  · exact le_trans (acmd41Go_now_le c _ 0 now s) (by simp)
  · refine le_trans (acmd41Go_now_le c _ _ now s) (le_max_of_le_right ?_)
    simp only [OS_TICKS_PER_SEC]
    omega

/-- C8: the operating-condition polling cannot run away: for any card and
any starting clock, the ACMD41 loop returns with the clock at most one
sleep step past the 1-second deadline.  Concretely, against a card that
answers every ACMD41 with the idle flag still set, `mmc_init` returns —
after 261 byte exchanges, i.e. 12 bounded ACMD41 attempts — and its return
code is the classification of the last observed status byte 0x01, namely
`MMC_TIMEOUT`. -/
theorem C8_acmd41_deadline :
    (∀ (c : Card) (timeout now : Nat) (s : St),
        (acmd41Loop c timeout now s).2.1 ≤ max now (timeout + OS_TICKS_PER_SEC / 10)) ∧
    (mmc_init c8card 0 0 25 0 st0).1 = MMC_TIMEOUT ∧
    (mmc_init c8card 0 0 25 0 st0).1 = mmc_error_by_status 0x01 ∧
    (mmc_init c8card 0 0 25 0 st0).2.2.cnt = 261 :=
  ⟨acmd41Loop_now_le, by decide, by decide, by decide⟩

/-- On a failed pre-read the write path has already released chip-select
inside the returned state. -/
theorem preReadStep_error_cs (c : Card) (ba off now : Nat) (s : St) (r : Int × St)
    (h : preReadStep c ba off now s = .error r) : csEnd r.2 = 1 := by
  rw [preReadStep] at h
  split at h
  · simp at h
  · lift_lets at h
    extract_lets q at h
    split at h
    · cases h
      rfl
    · lift_lets at h
      extract_lets t at h
      split at h
      · cases h
        rfl
      · lift_lets at h
        extract_lets s1 s2 s3 at h
        simp at h

/-- On a successful pre-read the chip-select history is untouched. -/
theorem preReadStep_ok_cs (c : Card) (ba off now : Nat) (s : St) (n' : Nat) (s' : St)
    (h : preReadStep c ba off now s = .ok (n', s')) : s'.cs = s.cs := by
  rw [preReadStep] at h
  split at h
  · cases h
    rfl
  · lift_lets at h
    extract_lets q at h
    split at h
    · simp at h
    · lift_lets at h
      extract_lets t at h
      split at h
      · simp at h
      · lift_lets at h
        extract_lets s1 s2 s3 at h
        obtain ⟨rfl, rfl⟩ : t.2.1 = n' ∧ s3 = s' := by simpa using h
        exact (spiTx_cs c s2 0xff).trans ((spiTx_cs c s1 0xff).trans
          ((fillBuf_cs c t.2.2).trans ((tokenPoll_cs c _ now q.2).trans
            (send_mmc_cmd_cs c s CMD17 ba))))

/-- C3: every exit path of `mmc_init`, `mmc_read` and `mmc_write` leaves
the chip-select line deasserted (level 1): `mmc_init` deasserts it
unconditionally, and the two transfer routines either return without
touching it (invalid slot id, so the line stays at its deasserted entry
level) or end with an explicit deassert. -/
theorem C3_cs_released :
    (∀ (c : Card) (n cf pin now : Nat) (s : St),
        csEnd (mmc_init c n cf pin now s).2.2 = 1) ∧
    (∀ (c : Card) (id addr len now : Nat) (s : St),
        csEnd s = 1 → csEnd (mmc_read c id addr len now s).2 = 1) ∧
    (∀ (c : Card) (id addr : Nat) (src : Nat → Nat) (len now : Nat) (s : St),
        csEnd s = 1 → csEnd (mmc_write c id addr src len now s).2 = 1) := by
  refine ⟨?_, ?_, ?_⟩
  · intro c n cf pin now s
    rw [mmc_init]
    lift_lets
    intros
    repeat' split
    all_goals rfl
  · intro c id addr len now s h
    rw [mmc_read]
    lift_lets
    intros
    repeat' split
    all_goals first | exact h | rfl
  · intro c id addr src len now s h
    rw [mmc_write]
    lift_lets
    intros
    split
    · exact h
    · split
      · next r heq => exact preReadStep_error_cs _ _ _ _ _ _ heq
      · next now1 s2 heq =>
          lift_lets
          intros
          split
          · rfl
          · rfl

/-- Witness for C3's hypothesized clauses at concrete runs: the initial
state has chip-select deasserted and each operation returns with it
deasserted. -/
theorem C3_cs_released_witness :
    csEnd (mmc_init c8card 0 0 25 0 st0).2.2 = 1 ∧
    csEnd (mmc_read c6card 0 100 600 0 st0).2 = 1 ∧
    csEnd (mmc_write c10card 0 512 (fun _ => 0) 0 0 st10).2 = 1 :=
  ⟨C3_cs_released.1 c8card 0 0 25 0 st0,
   C3_cs_released.2.1 c6card 0 100 600 0 st0 (by decide),
   C3_cs_released.2.2 c10card 0 512 (fun _ => 0) 0 0 st10 (by decide)⟩

/-- C9: whenever `mmc_read` returns anything other than success — invalid
slot id, command failure, or the data start token not seen before the poll
deadline — not a single byte has been copied toward the caller's
destination buffer: the recorded destination writes are exactly those of
the entry state. -/
theorem C9_read_error_no_output (c : Card) (id addr len now : Nat) (s : St)
    (h : (mmc_read c id addr len now s).1 ≠ MMC_OK) :
    (mmc_read c id addr len now s).2.out = s.out := by
  revert h
  rw [mmc_read]
  lift_lets
  extract_lets bl bc ba off s1 cmd q t s2 s3
  split
  · intro _
    rfl
  · split
    · intro _
      exact send_mmc_cmd_out c s1 cmd ba
    · split
      · intro hne
        exact absurd rfl hne
      · intro _
        exact (tokenPoll_out c _ now q.2).trans (send_mmc_cmd_out c s1 cmd ba)

/-- Witness for C9 at a concrete failing read (invalid slot id 5). -/
theorem C9_read_error_no_output_witness :
    (mmc_read c6card 5 0 600 0 st0).1 ≠ MMC_OK ∧
    (mmc_read c6card 5 0 600 0 st0).2.out = st0.out :=
  ⟨by decide, C9_read_error_no_output c6card 5 0 600 0 st0 (by decide)⟩

/-- The response poll transmits only 0xff bytes: between 1 and fuel+1 of
them, newest first on the transmit trace. -/
theorem pollR1Aux_txr (c : Card) (fuel : Nat) (s : St) :
    ∃ m, 1 ≤ m ∧ m ≤ fuel + 1 ∧
      (pollR1Aux c s fuel).2.txr = List.replicate m 0xff ++ s.txr := by
  induction fuel generalizing s with
  | zero =>
      refine ⟨1, le_refl 1, by omega, ?_⟩
      rw [pollR1Aux]
      split <;> rfl
  | succ f ih =>
      rw [pollR1Aux]
      split
      · exact ⟨1, le_refl 1, by omega, rfl⟩
      · obtain ⟨m, h1, h2, h3⟩ := ih (spiTx c s 0xff).2
        refine ⟨m + 1, by omega, by omega, h3.trans ?_⟩
        show List.replicate m 0xff ++ (0xff :: s.txr) = List.replicate (m + 1) 0xff ++ s.txr
        rw [List.append_cons, ← List.replicate_succ']

/-- One raw command exchange puts on the transmit trace (newest first): the
poll bytes, then the CRC byte, the 4 payload bytes (least significant
nearest), and the start byte. -/
theorem sendCmdRaw_txr (c : Card) (s : St) (cmd payload : Nat) :
    ∃ m, 1 ≤ m ∧ m ≤ 255 ∧
      (sendCmdRaw c s cmd payload).2.txr =
        List.replicate m 0xff ++
          ((if cmd = CMD0 then 0x95 else if cmd = CMD8 then 0x87 else 0x01) ::
            (payload &&& 0xff) :: ((payload >>> 8) &&& 0xff) ::
            ((payload >>> 16) &&& 0xff) :: ((payload >>> 24) &&& 0xff) ::
            (0x40 ||| (cmd &&& 0x7f)) :: s.txr) := by
  obtain ⟨m, h1, h2, h3⟩ := pollR1Aux_txr c 254
    (spiTx c (spiTx c (spiTx c (spiTx c (spiTx c (spiTx c s
      (0x40 ||| (cmd &&& 0x7f))).2 ((payload >>> 24) &&& 0xff)).2
      ((payload >>> 16) &&& 0xff)).2 ((payload >>> 8) &&& 0xff)).2
      (payload &&& 0xff)).2
      (if cmd = CMD0 then 0x95 else if cmd = CMD8 then 0x87 else 0x01)).2
  exact ⟨m, h1, by omega, h3⟩

/-- The start byte the codec computes, `0x40 | (cmd & ~0x80)`, coincides
with the spec's `0x40 | (cmd & 0x3F)` for every 8-bit command index,
because bit 6 is forced by the 0x40 transmission bit. -/
theorem startByteEq : ∀ cmd : Nat, cmd < 256 →
    0x40 ||| (cmd &&& 0x7f) = 0x40 ||| (cmd &&& 0x3f) := by
  decide

/-- C7: the bytes `send_mmc_cmd` puts on the wire are exactly: for a
command carrying the application-command marker, first the complete CMD55
prefix frame (`0x77 0 0 0 0 0x01`) with its response poll (whose result is
discarded); then the byte `0x40 | (cmd & 0x3F)`, the 4 argument bytes most
significant first, and one CRC byte — 0x95 for go-idle (CMD0), 0x87 for
send-interface-condition (CMD8), 0x01 for every other command — followed
by the 0xff response-poll bytes (at most 255 of them). -/
theorem C7_command_frame (c : Card) (s : St) (cmd payload : Nat) (hc : cmd < 256) :
    ∃ m1 m2, 1 ≤ m2 ∧ m2 ≤ 255 ∧
      (send_mmc_cmd c s cmd payload).2.wire =
        s.wire ++
          (if cmd &&& 0x80 ≠ 0 then [0x77, 0, 0, 0, 0, 0x01] ++ List.replicate m1 0xff
           else []) ++
          ([0x40 ||| (cmd &&& 0x3f),
            (payload >>> 24) &&& 0xff, (payload >>> 16) &&& 0xff,
            (payload >>> 8) &&& 0xff, payload &&& 0xff,
            if cmd = CMD0 then 0x95 else if cmd = CMD8 then 0x87 else 0x01] ++
           List.replicate m2 0xff) := by
  have hb := startByteEq cmd hc
  rw [send_mmc_cmd]
  split
  · next happ =>
      obtain ⟨m1, _, _, h1⟩ := sendCmdRaw_txr c s CMD55 0
      obtain ⟨m2, hm21, hm22, h2⟩ := sendCmdRaw_txr c (sendCmdRaw c s CMD55 0).2 cmd payload
      refine ⟨m1, m2, hm21, hm22, ?_⟩
      rw [St.wire, St.wire, h2, h1, hb]
      simp [CMD55, CMD0, CMD8, List.append_assoc]
      all_goals decide
  · next happ =>
      obtain ⟨m2, hm21, hm22, h2⟩ := sendCmdRaw_txr c s cmd payload
      refine ⟨0, m2, hm21, hm22, ?_⟩
      rw [St.wire, St.wire, h2, hb]
      simp [List.append_assoc]

/-- Witness for C7 at the application command ACMD41 with the HCS payload. -/
theorem C7_command_frame_witness :
    ∃ m1 m2, 1 ≤ m2 ∧ m2 ≤ 255 ∧
      (send_mmc_cmd c8card st0 ACMD41 HCS).2.wire =
        st0.wire ++
          (if ACMD41 &&& 0x80 ≠ 0 then [0x77, 0, 0, 0, 0, 0x01] ++ List.replicate m1 0xff
           else []) ++
          ([0x40 ||| (ACMD41 &&& 0x3f),
            (HCS >>> 24) &&& 0xff, (HCS >>> 16) &&& 0xff,
            (HCS >>> 8) &&& 0xff, HCS &&& 0xff,
            if ACMD41 = CMD0 then 0x95 else if ACMD41 = CMD8 then 0x87 else 0x01] ++
           List.replicate m2 0xff) :=
  C7_command_frame c8card st0 ACMD41 HCS (by decide)

/-- C5: once a write reaches its per-block loop (valid slot, pre-read step
succeeded, write command accepted), the returned status is determined
solely by the low 5 bits of the last data-response token the loop read
(`writeBlocksGo` returns exactly that token): 0b00101 gives `MMC_OK`,
0b01011 gives `MMC_CRC_ERROR`, and 0b01101 or any other value gives
`MMC_WRITE_ERROR` — whether the loop completed all blocks or aborted on a
rejected token, and regardless of the busy-poll wait that follows. -/
theorem C5_write_status (c : Card) (addr : Nat) (src : Nat → Nat) (len now now' : Nat)
    (s s' : St)
    (hpre : preReadStep c (addr / BLOCK_LEN) (addr - addr / BLOCK_LEN * BLOCK_LEN) now
      (gpioWrite s 0) = .ok (now', s'))
    (hcmd : (send_mmc_cmd c s'
      (if blockLenOf len / BLOCK_LEN = 1 then CMD24 else CMD25) (addr / BLOCK_LEN)).1 = 0) :
    (mmc_write c 0 addr src len now s).1 =
      writeRespStatus
        ((writeBlocksGo c (if blockLenOf len / BLOCK_LEN = 1 then CMD24 else CMD25) src len
            (addr - addr / BLOCK_LEN * BLOCK_LEN) len 0
            (spiTx c (send_mmc_cmd c s'
              (if blockLenOf len / BLOCK_LEN = 1 then CMD24 else CMD25)
              (addr / BLOCK_LEN)).2 0xff).2).1 &&& 0x1f) := by
  rw [mmc_write, if_neg (show ¬(0 : Nat) ≠ 0 from by decide)]
  lift_lets
  extract_lets bl bc ba off s1
  rw [show preReadStep c ba off now s1 =
        preReadStep c (addr / BLOCK_LEN) (addr - addr / BLOCK_LEN * BLOCK_LEN) now
          (gpioWrite s 0) from rfl, hpre]
  show (let cmd := if bc = 1 then CMD24 else CMD25
        let q := send_mmc_cmd c s' cmd ba
        let sg := (spiTx c q.2 0xff).2
        let w := writeBlocksGo c cmd src len off len 0 sg
        let res := w.1 &&& 0x1f
        let status : Int :=
          if res = 0x05 then MMC_OK
          else if res = 0x0b then MMC_CRC_ERROR
          else MMC_WRITE_ERROR
        let b := busyPoll c (now' + 5 * OS_TICKS_PER_SEC) now' w.2
        if q.1 ≠ 0 then (MMC_CARD_ERROR, gpioWrite q.2 1)
        else (status, gpioWrite b.2.2 1)).1 = _
  lift_lets
  extract_lets cmd q sg w res status b
  rw [if_neg (show ¬q.1 ≠ 0 from by simpa using (show q.1 = 0 from hcmd))]
  rfl

/-- Witness for C5 at the zero-length aligned write against `c10card`. -/
theorem C5_write_status_witness :
    (mmc_write c10card 0 512 (fun _ => 0) 0 0 st10).1 =
      writeRespStatus
        ((writeBlocksGo c10card (if blockLenOf 0 / BLOCK_LEN = 1 then CMD24 else CMD25)
            (fun _ => 0) 0 (512 - 512 / BLOCK_LEN * BLOCK_LEN) 0 0
            (spiTx c10card (send_mmc_cmd c10card (gpioWrite st10 0)
              (if blockLenOf 0 / BLOCK_LEN = 1 then CMD24 else CMD25)
              (512 / BLOCK_LEN)).2 0xff).2).1 &&& 0x1f) :=
  C5_write_status c10card 512 (fun _ => 0) 0 0 0 st10 (gpioWrite st10 0) rfl (by decide)
